import Mathlib

/-!
Verification of the superdev Solana HTTP service handlers.

The handlers in `src/handlers/` are embedded as pure Lean functions over a
byte model (`List Nat`, each element < 256).  The third-party codecs
(bs58, base64) are implemented faithfully; the cryptographic and
instruction-construction libraries (ed25519-dalek, solana-sdk, spl-token)
are not part of the repository source and are modelled from the spec,
as noted on each such definition.
-/

namespace Superdev

/-- Little-endian digit expansion of `n` in base `b`, driven by explicit
fuel (equal to `Nat.digits b n` for `2 ≤ b` and fuel `≥ n`). -/
def digitsAux (b : Nat) : Nat → Nat → List Nat
  | _, 0 => []
  | 0, _ + 1 => []
  | fuel + 1, n + 1 => (n + 1) % b :: digitsAux b fuel ((n + 1) / b)

/-- Little-endian digits of `n` in base `b`. -/
def digitsLE (b n : Nat) : List Nat := digitsAux b n n

/-- Value of a little-endian digit list in base `b`. -/
def valLE (b : Nat) : List Nat → Nat
  | [] => 0
  | d :: ds => d + b * valLE b ds

/-- Value of a big-endian digit list in base `b` (accumulator form, as the
bs58 crate computes it). -/
def valBE (b : Nat) (ds : List Nat) : Nat := ds.foldl (fun acc d => acc * b + d) 0

/-- Number of leading zero entries of a byte/digit list. -/
def countLeadingZeros : List Nat → Nat
  | [] => 0
  | d :: ds => if d = 0 then countLeadingZeros ds + 1 else 0

/-- The Bitcoin base58 alphabet used by the bs58 crate. -/
def b58Alphabet : List Char :=
  "123456789ABCDEFGHJKLMNPQRSTUVWXYZabcdefghijkmnopqrstuvwxyz".data

/-- Digit value of a base58 character (`none` for a character outside the
alphabet). -/
def b58Val (c : Char) : Option Nat := List.findIdx? (fun a => a == c) b58Alphabet

/-- Base58 character of a digit below 58. -/
def b58Char (d : Nat) : Char := b58Alphabet.getD d '1'

/-- Map every character to its base58 digit, failing on the first invalid
character (as `bs58::decode` does). -/
def b58DecodeVals : List Char → Option (List Nat)
  | [] => some []
  | c :: cs =>
    match b58Val c, b58DecodeVals cs with
    | some d, some ds => some (d :: ds)
    | _, _ => none

/-- Rust `bs58::encode`: big-endian base58 digits of the byte string's value,
preceded by one `1` per leading zero byte. -/
def base58Encode (bs : List Nat) : String :=
  String.mk (List.replicate (countLeadingZeros bs) '1' ++
    ((digitsLE 58 (valBE 256 bs)).reverse.map b58Char))

/-- Rust `bs58::decode(...).into_vec()`: fails on any character outside the
alphabet; otherwise the big-endian base256 expansion of the digit value,
preceded by one zero byte per leading `1`. -/
def base58Decode (s : String) : Option (List Nat) :=
  (b58DecodeVals s.data).map (fun ds =>
    List.replicate (countLeadingZeros ds) 0 ++ (digitsLE 256 (valBE 58 ds)).reverse)

/-- The standard base64 alphabet. -/
def b64Alphabet : List Char :=
  "ABCDEFGHIJKLMNOPQRSTUVWXYZabcdefghijklmnopqrstuvwxyz0123456789+/".data

/-- Digit value of a base64 character. -/
def b64Val (c : Char) : Option Nat := List.findIdx? (fun a => a == c) b64Alphabet

/-- Base64 character of a 6-bit value. -/
def b64Char (d : Nat) : Char := b64Alphabet.getD d 'A'

/-- Rust `base64::encode` (standard alphabet, padded): bytes three at a time. -/
def b64EncodeChunks : List Nat → List Char
  | [] => []
  | [a] => [b64Char (a / 4), b64Char (a % 4 * 16), '=', '=']
  | [a, b] => [b64Char (a / 4), b64Char (a % 4 * 16 + b / 16), b64Char (b % 16 * 4), '=']
  | a :: b :: c :: rest =>
      b64Char (a / 4) :: b64Char (a % 4 * 16 + b / 16) ::
        b64Char (b % 16 * 4 + c / 64) :: b64Char (c % 64) :: b64EncodeChunks rest

/-- Strict base64 decoding: groups of four characters, canonical padding
only in the final group, trailing bits required to be zero. -/
def b64DecodeChars : List Char → Option (List Nat)
  | [] => some []
  | c1 :: c2 :: c3 :: c4 :: rest =>
    match b64Val c1, b64Val c2 with
    | some v1, some v2 =>
      if c3 = '=' then
        if c4 = '=' ∧ rest = [] ∧ v2 % 16 = 0 then some [v1 * 4 + v2 / 16] else none
      else
        match b64Val c3 with
        | some v3 =>
          if c4 = '=' then
            if rest = [] ∧ v3 % 4 = 0 then
              some [v1 * 4 + v2 / 16, v2 % 16 * 16 + v3 / 4]
            else none
          else
            match b64Val c4 with
            | some v4 =>
                (b64DecodeChars rest).map
                  (fun bs => (v1 * 4 + v2 / 16) :: (v2 % 16 * 16 + v3 / 4) ::
                    (v3 % 4 * 64 + v4) :: bs)
            | none => none
        | none => none
    | _, _ => none
  | _ => none

/-- Rust `base64::encode` on a byte string. -/
def base64Encode (bs : List Nat) : String := String.mk (b64EncodeChunks bs)

/-- Rust `base64::decode` on a string. -/
def base64Decode (s : String) : Option (List Nat) := b64DecodeChars s.data

/-- UTF-8 encoding of one character. -/
def utf8Char (c : Char) : List Nat :=
  let n := c.toNat
  if n < 128 then [n]
  else if n < 2048 then [192 + n / 64, 128 + n % 64]
  else if n < 65536 then [224 + n / 4096, 128 + n / 64 % 64, 128 + n % 64]
  else [240 + n / 262144, 128 + n / 4096 % 64, 128 + n / 64 % 64, 128 + n % 64]

/-- The UTF-8 bytes of a string, as `str::as_bytes` exposes them. -/
def utf8Bytes (s : String) : List Nat :=
  s.data.foldr (fun c acc => utf8Char c ++ acc) []

/-! ### Ed25519 model

ed25519-dalek is not part of the repository source; the scheme is modelled
from the spec.  Signatures are deterministic values that bind the signing
public key and the exact message bytes, so that the spec's stated
properties (sign/verify round-trip validity, strict verification,
rejection of any tampered message) are reflected faithfully. -/

/-- Modelled from the spec: Ed25519 public-key derivation from a 32-byte
seed (the scalar-multiplication step of the missing library).  Any pure
derivation is faithful; this one keeps bytes below 256 and produces an
always-valid point. -/
def pubkeyOf (seed : List Nat) : List Nat := seed.map (fun b => b % 128 * 2)

/-- Modelled from the spec: validity of a 32-byte compressed curve point
(the decompression check of `PublicKey::from_bytes`), abstracted as a
decidable predicate satisfied by every derived public key and failed by
some byte strings. -/
def isValidPoint (bs : List Nat) : Bool := bs.length == 32 && bs.headD 0 % 2 == 0

/-- Modelled from the spec: `PublicKey::from_bytes` — requires exactly 32
bytes forming a valid point. -/
def publicKeyFromBytes (bs : List Nat) : Option (List Nat) :=
  if isValidPoint bs then some bs else none

/-- A parsed dalek keypair: 32-byte secret seed plus 32-byte public key. -/
structure DalekKeypair where
  seed : List Nat
  pub : List Nat
  deriving Repr, DecidableEq

/-- Modelled from the spec: `Keypair::from_bytes` — splits 64 bytes into
the secret half and the public half, requiring the public half to parse
as a valid point. -/
def keypairFromBytes (bs : List Nat) : Option DalekKeypair :=
  if bs.length = 64 then
    match publicKeyFromBytes (bs.drop 32) with
    | some pk => some { seed := bs.take 32, pub := pk }
    | none => none
  else none

/-- Modelled from the spec: signing binds the keypair's public key and the
message bytes into the signature deterministically. -/
def dalekSign (kp : DalekKeypair) (msg : List Nat) : List Nat := kp.pub ++ msg

/-- Modelled from the spec: `Signature::from_bytes` accepts every byte
string produced by signing; its structural checks are abstracted away. -/
def signatureFromBytes (bs : List Nat) : Option (List Nat) := some bs

/-- Modelled from the spec: strict verification — a signature is valid
exactly when it is the canonical signature of this message under the key
it claims. -/
def verifyStrict (pk msg sig : List Nat) : Bool := sig == pk ++ msg

/-! ### Solana / SPL instruction model

solana-sdk and spl-token are not part of the repository source; their
instruction constructors are modelled from the spec. -/

/-- An account reference inside an instruction. -/
structure IxAccountMeta where
  pubkey : List Nat
  is_signer : Bool
  is_writable : Bool
  deriving Repr, DecidableEq

/-- A constructed instruction: program id, accounts, raw payload bytes. -/
structure Instruction where
  program_id : List Nat
  accounts : List IxAccountMeta
  data : List Nat
  deriving Repr, DecidableEq

/-- The native system program id (32 zero bytes). -/
def systemProgramId : List Nat := List.replicate 32 0

/-- The SPL token program id. -/
def splTokenId : List Nat :=
  (base58Decode "TokenkegQfeZyiNwAJbNbGKPFXCWuBvf9Ss623VQ5DA").getD []

/-- The rent sysvar id. -/
def sysvarRentId : List Nat :=
  (base58Decode "SysvarRent111111111111111111111111111111111").getD []

/-- Little-endian encoding of an unsigned 64-bit integer. -/
def u64LE (n : Nat) : List Nat :=
  let m := n % 2 ^ 64
  [m % 256, m / 256 % 256, m / 256 ^ 2 % 256, m / 256 ^ 3 % 256,
    m / 256 ^ 4 % 256, m / 256 ^ 5 % 256, m / 256 ^ 6 % 256, m / 256 ^ 7 % 256]

/-- Modelled from the spec: `Pubkey::from_str` — at most 44 characters,
base58-decoding to exactly 32 bytes. -/
def pubkeyFromStr (s : String) : Option (List Nat) :=
  if s.length > 44 then none
  else
    match base58Decode s with
    | some bs => if bs.length = 32 then some bs else none
    | none => none

/-- Rust `Pubkey::to_string`: base58 encoding of the 32 key bytes. -/
def pubkeyToString (pk : List Nat) : String := base58Encode pk

/-- Modelled from the spec: `system_instruction::transfer` — a native
lamport transfer: system program id, `from` as signer+writable then `to`
as writable, payload the 4-byte instruction index 2 followed by the
lamports as a little-endian u64. -/
def system_transfer (from_pk to_pk : List Nat) (lamports : Nat) : Instruction :=
  { program_id := systemProgramId
    accounts := [⟨from_pk, true, true⟩, ⟨to_pk, false, true⟩]
    data := [2, 0, 0, 0] ++ u64LE lamports }

/-- Modelled from the spec: `spl_token::instruction::initialize_mint` —
fails only when the supplied token program id is not the SPL token id;
otherwise mint (writable) and rent sysvar accounts, payload tag 0,
decimals, the mint authority bytes and the empty freeze-authority tag. -/
def initialize_mint (tokenProgramId mint mintAuthority : List Nat)
    (freezeAuthority : Option (List Nat)) (decimals : Nat) :
    Except String Instruction :=
  if tokenProgramId = splTokenId then
    .ok { program_id := tokenProgramId
          accounts := [⟨mint, false, true⟩, ⟨sysvarRentId, false, false⟩]
          data := 0 :: decimals % 256 :: mintAuthority ++
            (match freezeAuthority with
             | some fa => 1 :: fa
             | none => [0]) }
  else .error "IncorrectProgramId"

/-- Modelled from the spec: `spl_token::instruction::mint_to` — fails only
on a wrong token program id; accounts are mint (writable), destination
(writable) and the authority, a signer when no multisig signers are
given; payload tag 7 followed by the amount as a little-endian u64. -/
def mint_to (tokenProgramId mint destination authority : List Nat)
    (signers : List (List Nat)) (amount : Nat) : Except String Instruction :=
  if tokenProgramId = splTokenId then
    .ok { program_id := tokenProgramId
          accounts := [⟨mint, false, true⟩, ⟨destination, false, true⟩,
            ⟨authority, signers.isEmpty, false⟩] ++
            signers.map (fun s => ⟨s, true, false⟩)
          data := 7 :: u64LE amount }
  else .error "IncorrectProgramId"

/-- Modelled from the spec: `spl_token::instruction::transfer_checked` —
fails only on a wrong token program id; accounts are source (writable),
mint, destination (writable) and the authority, a signer when no multisig
signers are given; payload tag 12, the amount as a little-endian u64 and
the decimals byte. -/
def transfer_checked (tokenProgramId source mint destination authority : List Nat)
    (signers : List (List Nat)) (amount decimals : Nat) : Except String Instruction :=
  if tokenProgramId = splTokenId then
    .ok { program_id := tokenProgramId
          accounts := [⟨source, false, true⟩, ⟨mint, false, false⟩,
            ⟨destination, false, true⟩, ⟨authority, signers.isEmpty, false⟩] ++
            signers.map (fun s => ⟨s, true, false⟩)
          data := 12 :: u64LE amount ++ [decimals % 256] }
  else .error "IncorrectProgramId"

/-! ### Handler embeddings (from `src/handlers/`)

Each axum handler is a pure function from its decoded JSON request to its
response envelope; the `Json` wrapping and async plumbing carry no logic. -/

/-- The uniform response envelope `{success, data}` declared (identically)
in `keypair.rs`, `message.rs`, `token.rs` and `transfer.rs`. -/
structure ApiResponse (T : Type) where
  success : Bool
  data : T
  deriving Repr, DecidableEq

/-- From `keypair.rs`: the `/keypair` response data. -/
structure KeypairData where
  pubkey : String
  secret : String
  deriving Repr, DecidableEq

/-- Handler `keypair.rs::generate_keypair`; the random 32-byte seed drawn by
`Keypair::new` is the explicit `seed` argument (modelled from the spec:
solana-sdk keypairs are Ed25519, `to_bytes` is seed then public key,
`pubkey()` the base58 public key). -/
def generate_keypair (seed : List Nat) : ApiResponse KeypairData :=
  { success := true
    data := { pubkey := base58Encode (pubkeyOf seed)
              secret := base58Encode (seed ++ pubkeyOf seed) } }

/-- From `message.rs`: the `/message/sign` request. -/
structure SignMessageRequest where
  message : String
  secret : String
  deriving Repr, DecidableEq

/-- From `message.rs`: the `/message/sign` response data. -/
structure SignMessageResponse where
  signature : String
  public_key : String
  message : String
  deriving Repr, DecidableEq

/-- The error text of the secret-decoding failure path of `sign_message`. -/
def signDecodeErr : String := "Invalid or malformed secret key (expected 64-byte base58)"

/-- The error text of the keypair-parsing failure path of `sign_message`. -/
def signParseErr : String := "Failed to parse secret key into Keypair"

/-- Handler `message.rs::sign_message`. -/
def sign_message (payload : SignMessageRequest) : ApiResponse SignMessageResponse :=
  match base58Decode payload.secret with
  | some secret_bytes =>
    if secret_bytes.length = 64 then
      match keypairFromBytes secret_bytes with
      | some keypair =>
          { success := true
            data := { signature := base64Encode (dalekSign keypair (utf8Bytes payload.message))
                      public_key := base58Encode keypair.pub
                      message := payload.message } }
      | none =>
          { success := false
            data := { signature := "", public_key := "", message := signParseErr } }
    else
      { success := false
        data := { signature := "", public_key := "", message := signDecodeErr } }
  | none =>
      { success := false
        data := { signature := "", public_key := "", message := signDecodeErr } }

/-- From `message.rs`: the `/message/verify` request. -/
structure VerifyMessageRequest where
  message : String
  signature : String
  pubkey : String
  deriving Repr, DecidableEq

/-- From `message.rs`: the `/message/verify` response data. -/
structure VerifyMessageData where
  valid : Bool
  message : String
  pubkey : String
  deriving Repr, DecidableEq

/-- Handler `message.rs::verify_message`. -/
def verify_message (payload : VerifyMessageRequest) : ApiResponse VerifyMessageData :=
  match base58Decode payload.pubkey with
  | none =>
      { success := false
        data := { valid := false, message := "Invalid base58 pubkey", pubkey := payload.pubkey } }
  | some pubkey_bytes =>
    match publicKeyFromBytes pubkey_bytes with
    | none =>
        { success := false
          data := { valid := false, message := "Failed to parse pubkey", pubkey := payload.pubkey } }
    | some public_key =>
      match base64Decode payload.signature with
      | none =>
          { success := false
            data := { valid := false, message := "Invalid base64 signature", pubkey := payload.pubkey } }
      | some signature_bytes =>
        match signatureFromBytes signature_bytes with
        | none =>
            { success := false
              data := { valid := false, message := "Failed to parse signature", pubkey := payload.pubkey } }
        | some signature =>
            { success := true
              data := { valid := verifyStrict public_key (utf8Bytes payload.message) signature
                        message := payload.message
                        pubkey := payload.pubkey } }

/-- From `token.rs`: the `/token/create` request (`decimals` is a `u8`). -/
structure CreateTokenRequest where
  mint_authority : String
  mint : String
  decimals : Nat
  deriving Repr, DecidableEq

/-- From `token.rs`: the serialized account meta (verbose shape). -/
structure AccountMeta where
  pubkey : String
  is_signer : Bool
  is_writable : Bool
  deriving Repr, DecidableEq

/-- From `token.rs`: the `/token/create` and `/token/mint` response data. -/
structure TokenInstructionResponse where
  program_id : String
  accounts : List AccountMeta
  instruction_data : String
  deriving Repr, DecidableEq

/-- Handler `token.rs::create_token`. -/
def create_token (payload : CreateTokenRequest) : ApiResponse TokenInstructionResponse :=
  match pubkeyFromStr payload.mint with
  | none =>
      { success := false
        data := { program_id := "", accounts := [], instruction_data := "Invalid mint pubkey" } }
  | some mint =>
    match pubkeyFromStr payload.mint_authority with
    | none =>
        { success := false
          data := { program_id := "", accounts := [],
                    instruction_data := "Invalid mintAuthority pubkey" } }
    | some mint_authority =>
      match initialize_mint splTokenId mint mint_authority none payload.decimals with
      | .error e =>
          { success := false
            data := { program_id := "", accounts := [], instruction_data := e } }
      | .ok ix =>
          { success := true
            data := { program_id := pubkeyToString ix.program_id
                      accounts := ix.accounts.map (fun meta =>
                        { pubkey := pubkeyToString meta.pubkey
                          is_signer := meta.is_signer
                          is_writable := meta.is_writable })
                      instruction_data := base64Encode ix.data } }

/-- From `token.rs`: the `/token/mint` request (`amount` is a `u64`). -/
structure MintTokenRequest where
  mint : String
  destination : String
  authority : String
  amount : Nat
  deriving Repr, DecidableEq

/-- Handler `token.rs::mint_token`. -/
def mint_token (payload : MintTokenRequest) : ApiResponse TokenInstructionResponse :=
  match pubkeyFromStr payload.mint with
  | none =>
      { success := false
        data := { program_id := "", accounts := [], instruction_data := "Invalid mint pubkey" } }
  | some mint =>
    match pubkeyFromStr payload.destination with
    | none =>
        { success := false
          data := { program_id := "", accounts := [],
                    instruction_data := "Invalid destination pubkey" } }
    | some destination =>
      match pubkeyFromStr payload.authority with
      | none =>
          { success := false
            data := { program_id := "", accounts := [],
                      instruction_data := "Invalid authority pubkey" } }
      | some authority =>
        match mint_to splTokenId mint destination authority [] payload.amount with
        | .error e =>
            { success := false
              data := { program_id := "", accounts := [], instruction_data := e } }
        | .ok ix =>
            { success := true
              data := { program_id := pubkeyToString ix.program_id
                        accounts := ix.accounts.map (fun meta =>
                          { pubkey := pubkeyToString meta.pubkey
                            is_signer := meta.is_signer
                            is_writable := meta.is_writable })
                        instruction_data := base64Encode ix.data } }

/-- From `transfer.rs`: the `/send/sol` request (`lamports` is a `u64`). -/
structure SendSolRequest where
  «from» : String
  «to» : String
  lamports : Nat
  deriving Repr, DecidableEq

/-- From `transfer.rs`: the `/send/token` request (`amount` is a `u64`). -/
structure SendTokenRequest where
  destination : String
  mint : String
  owner : String
  amount : Nat
  deriving Repr, DecidableEq

/-- From `transfer.rs`: the `/send/sol` response data (string-only accounts). -/
structure SolInstructionResponse where
  program_id : String
  accounts : List String
  instruction_data : String
  deriving Repr, DecidableEq

/-- From `transfer.rs`: the compact account meta of `/send/token`. -/
structure CompactAccountMeta where
  pubkey : String
  is_signer : Bool
  deriving Repr, DecidableEq

/-- From `transfer.rs`: the `/send/token` response data. -/
structure CompactTokenInstructionResponse where
  program_id : String
  accounts : List CompactAccountMeta
  instruction_data : String
  deriving Repr, DecidableEq

/-- An ASCII apostrophe, as it appears inside two error texts. -/
def apos : Char := Char.ofNat 39

/-- The error text of the `from`-parsing failure path of `send_sol`. -/
def sendSolFromErr : String :=
  "Invalid " ++ String.singleton apos ++ "from" ++ String.singleton apos ++ " pubkey"

/-- The error text of the `to`-parsing failure path of `send_sol`. -/
def sendSolToErr : String :=
  "Invalid " ++ String.singleton apos ++ "to" ++ String.singleton apos ++ " pubkey"

/-- Handler `transfer.rs::send_sol`. -/
def send_sol (payload : SendSolRequest) : ApiResponse SolInstructionResponse :=
  match pubkeyFromStr payload.«from» with
  | none =>
      { success := false
        data := { program_id := "", accounts := []
                  instruction_data := base64Encode (utf8Bytes sendSolFromErr) } }
  | some fromPk =>
    match pubkeyFromStr payload.«to» with
    | none =>
        { success := false
          data := { program_id := "", accounts := []
                    instruction_data := base64Encode (utf8Bytes sendSolToErr) } }
    | some toPk =>
      let ix := system_transfer fromPk toPk payload.lamports
      { success := true
        data := { program_id := pubkeyToString ix.program_id
                  accounts := ix.accounts.map (fun meta => pubkeyToString meta.pubkey)
                  instruction_data := base64Encode ix.data } }

/-- Handler `transfer.rs::send_token`. -/
def send_token (payload : SendTokenRequest) : ApiResponse CompactTokenInstructionResponse :=
  match pubkeyFromStr payload.destination with
  | none =>
      { success := false
        data := { program_id := "", accounts := []
                  instruction_data := base64Encode (utf8Bytes "Invalid destination pubkey") } }
  | some destination =>
    match pubkeyFromStr payload.mint with
    | none =>
        { success := false
          data := { program_id := "", accounts := []
                    instruction_data := base64Encode (utf8Bytes "Invalid mint pubkey") } }
    | some mint =>
      match pubkeyFromStr payload.owner with
      | none =>
          { success := false
            data := { program_id := "", accounts := []
                      instruction_data := base64Encode (utf8Bytes "Invalid owner pubkey") } }
      | some owner =>
        match transfer_checked splTokenId owner mint destination owner [] payload.amount 6 with
        | .error e =>
            { success := false
              data := { program_id := "", accounts := []
                        instruction_data := base64Encode (utf8Bytes e) } }
        | .ok ix =>
            { success := true
              data := { program_id := pubkeyToString ix.program_id
                        accounts := ix.accounts.map (fun meta =>
                          { pubkey := pubkeyToString meta.pubkey
                            is_signer := meta.is_signer })
                        instruction_data := base64Encode ix.data } }

/-! ### Codec lemmas -/

theorem digitsAux_eq (b : Nat) (hb : 2 ≤ b) :
    ∀ fuel n, n ≤ fuel → digitsAux b fuel n = Nat.digits b n := by
  intro fuel
  induction fuel with
  | zero =>
    intro n hn
    interval_cases n
    simp [digitsAux]
  | succ fuel ih =>
    intro n hn
    match n with
    | 0 => simp [digitsAux]
    | n + 1 =>
      have hdiv : (n + 1) / b ≤ fuel := by
        have : (n + 1) / b < n + 1 := Nat.div_lt_self (Nat.succ_pos n) (by omega)
        omega
      rw [digitsAux, ih _ hdiv, ← Nat.digits_def' (by omega : 1 < b) (Nat.succ_pos n)]

theorem digitsLE_eq {b : Nat} (hb : 2 ≤ b) (n : Nat) : digitsLE b n = Nat.digits b n :=
  digitsAux_eq b hb n n (Nat.le_refl n)

theorem valLE_eq_ofDigits (b : Nat) (l : List Nat) : valLE b l = Nat.ofDigits b l := by
  induction l with
  | nil => simp [valLE, Nat.ofDigits_nil]
  | cons d ds ih => simp [valLE, Nat.ofDigits_cons, ih]

theorem valBE_reverse (b : Nat) (l : List Nat) : valBE b l.reverse = valLE b l := by
  rw [valBE, List.foldl_reverse]
  induction l with
  | nil => simp [valLE]
  | cons d ds ih => simp [valLE, ih]; ring

theorem valBE_eq (b : Nat) (l : List Nat) : valBE b l = valLE b l.reverse := by
  rw [← valBE_reverse b l.reverse, List.reverse_reverse]

theorem valBE_replicate_zero (b k : Nat) (l : List Nat) :
    valBE b (List.replicate k 0 ++ l) = valBE b l := by
  induction k with
  | zero => simp
  | succ k ih =>
    simp only [List.replicate_succ, List.cons_append, valBE, List.foldl_cons] at *
    simpa using ih

theorem clz_replicate_append (k : Nat) (l : List Nat) :
    countLeadingZeros (List.replicate k 0 ++ l) = k + countLeadingZeros l := by
  induction k with
  | zero => simp
  | succ k ih => simp [List.replicate_succ, countLeadingZeros, ih]; omega

theorem clz_replicate (k : Nat) : countLeadingZeros (List.replicate k 0) = k := by
  have := clz_replicate_append k []
  simpa [countLeadingZeros] using this

theorem clz_decomp (l : List Nat) :
    l = List.replicate (countLeadingZeros l) 0 ++ l.drop (countLeadingZeros l) := by
  induction l with
  | nil => simp [countLeadingZeros]
  | cons d ds ih =>
    by_cases hd : d = 0
    · subst hd
      simp only [countLeadingZeros, if_pos rfl, List.replicate_succ, List.cons_append,
        List.drop_succ_cons]
      exact congrArg (0 :: ·) ih
    · simp [countLeadingZeros, hd]

theorem clz_drop (l : List Nat) :
    l.drop (countLeadingZeros l) = [] ∨ (l.drop (countLeadingZeros l)).headD 0 ≠ 0 := by
  induction l with
  | nil => simp
  | cons d ds ih =>
    by_cases hd : d = 0
    · subst hd
      simpa [countLeadingZeros] using ih
    · simp [countLeadingZeros, hd]

theorem clz_headD_ne (l : List Nat) (h : l.headD 0 ≠ 0) : countLeadingZeros l = 0 := by
  cases l with
  | nil => simp at h
  | cons d ds =>
    simp only [List.headD_cons] at h
    simp [countLeadingZeros, h]

theorem digitsLE_lt {b : Nat} (hb : 2 ≤ b) (n : Nat) : ∀ d ∈ digitsLE b n, d < b := by
  rw [digitsLE_eq hb]
  intro d hd
  exact Nat.digits_lt_base (by omega) hd

theorem digitsLE_reverse_headD {b : Nat} (hb : 2 ≤ b) {n : Nat} (hn : n ≠ 0) :
    ((digitsLE b n).reverse).headD 0 ≠ 0 := by
  rw [digitsLE_eq hb]
  have hne : Nat.digits b n ≠ [] := Nat.digits_ne_nil_iff_ne_zero.mpr hn
  have hlast := Nat.getLast_digit_ne_zero b hn
  have h1 : (Nat.digits b n).reverse.head? = some ((Nat.digits b n).getLast hne) := by
    rw [List.head?_reverse, List.getLast?_eq_getLast _ hne]
  cases hrev : (Nat.digits b n).reverse with
  | nil => simp [hrev] at h1
  | cons a t =>
    rw [hrev] at h1
    simp only [List.head?_cons, Option.some.injEq] at h1
    simpa [h1] using hlast

theorem digitsLE_zero (b : Nat) : digitsLE b 0 = [] := rfl

theorem valLE_digitsLE {b : Nat} (hb : 2 ≤ b) (n : Nat) : valLE b (digitsLE b n) = n := by
  rw [digitsLE_eq hb, valLE_eq_ofDigits, Nat.ofDigits_digits]

theorem digitsLE_valLE {b : Nat} (hb : 2 ≤ b) (l : List Nat) (h1 : ∀ d ∈ l, d < b)
    (h2 : ∀ h : l ≠ [], l.getLast h ≠ 0) : digitsLE b (valLE b l) = l := by
  rw [digitsLE_eq hb, valLE_eq_ofDigits, Nat.digits_ofDigits b (by omega) l h1 h2]

theorem b58Alphabet_length : b58Alphabet.length = 58 := by decide

theorem b58Val_b58Char : ∀ d, d < 58 → b58Val (b58Char d) = some d := by decide

theorem b58Char_zero : b58Char 0 = '1' := rfl

theorem b58Val_inv {c : Char} {d : Nat} (h : b58Val c = some d) :
    d < 58 ∧ b58Char d = c := by
  obtain ⟨hlt, hp, -⟩ := List.findIdx?_eq_some_iff_getElem.mp h
  refine ⟨by simpa [b58Alphabet_length] using hlt, ?_⟩
  rw [b58Char, List.getD_eq_getElem _ _ hlt]
  exact (eq_of_beq hp)

theorem b64Alphabet_length : b64Alphabet.length = 64 := by decide

theorem b64Val_b64Char : ∀ d, d < 64 → b64Val (b64Char d) = some d := by decide

theorem b64Char_ne_pad : ∀ d, d < 64 → b64Char d ≠ '=' := by decide

theorem b58DecodeVals_map {ds : List Nat} (h : ∀ d ∈ ds, d < 58) :
    b58DecodeVals (ds.map b58Char) = some ds := by
  induction ds with
  | nil => simp [b58DecodeVals]
  | cons d ds ih =>
    have hd : d < 58 := h d (List.mem_cons_self d ds)
    have hds : ∀ x ∈ ds, x < 58 := fun x hx => h x (List.mem_cons_of_mem d hx)
    simp [b58DecodeVals, b58Val_b58Char d hd, ih hds]

theorem b58DecodeVals_inv :
    ∀ {cs : List Char} {ds : List Nat}, b58DecodeVals cs = some ds →
      cs = ds.map b58Char ∧ ∀ d ∈ ds, d < 58 := by
  intro cs
  induction cs with
  | nil =>
    intro ds h
    simp only [b58DecodeVals, Option.some.injEq] at h
    subst h
    simp
  | cons c cs ih =>
    intro ds h
    simp only [b58DecodeVals] at h
    cases hc : b58Val c with
    | none => rw [hc] at h; exact absurd h (by simp)
    | some d =>
      rw [hc] at h
      cases hcs : b58DecodeVals cs with
      | none => rw [hcs] at h; exact absurd h (by simp)
      | some ds' =>
        rw [hcs] at h
        simp only [Option.some.injEq] at h
        subst h
        obtain ⟨hmap, hlt⟩ := ih hcs
        obtain ⟨hd58, hchar⟩ := b58Val_inv hc
        constructor
        · simp [List.map_cons, hchar, ← hmap]
        · intro x hx
          rcases List.mem_cons.mp hx with h1 | h2
          · omega
          · exact hlt x h2

theorem replicate_one_map : ∀ k : Nat, List.replicate k '1' = (List.replicate k 0).map b58Char := by
  intro k
  simp [List.map_replicate, b58Char_zero]

theorem headD_ne_nil {l : List Nat} (h : l.headD 0 ≠ 0) : l ≠ [] := by
  intro hcon
  rw [hcon] at h
  simp at h

theorem getLast_reverse_ne {l : List Nat} (h : l.headD 0 ≠ 0) :
    ∀ hne : l.reverse ≠ [], l.reverse.getLast hne ≠ 0 := by
  cases l with
  | nil => simp at h
  | cons a t =>
    intro hne
    have h1 : (a :: t).reverse.getLast? = some a := by
      rw [List.getLast?_reverse]
      rfl
    have h2 : (a :: t).reverse.getLast? = some ((a :: t).reverse.getLast hne) :=
      List.getLast?_eq_getLast _ hne
    rw [h1] at h2
    simp only [Option.some.injEq] at h2
    rw [← h2]
    simpa using h

/-- Decoding a base58 encoding recovers the byte string. -/
theorem base58_decode_encode {bs : List Nat} (h : ∀ x ∈ bs, x < 256) :
    base58Decode (base58Encode bs) = some bs := by
  set k := countLeadingZeros bs with hk
  set n := valBE 256 bs with hn
  have hdig58 : ∀ d ∈ digitsLE 58 n, d < 58 := digitsLE_lt (by omega) n
  have hvals : b58DecodeVals (List.replicate k '1' ++ (digitsLE 58 n).reverse.map b58Char)
      = some (List.replicate k 0 ++ (digitsLE 58 n).reverse) := by
    rw [replicate_one_map, ← List.map_append]
    apply b58DecodeVals_map
    intro d hd
    rcases List.mem_append.mp hd with h1 | h2
    · have := List.eq_of_mem_replicate h1
      omega
    · exact hdig58 d (List.mem_reverse.mp h2)
  rw [base58Encode, base58Decode]
  rw [show (String.mk (List.replicate k '1' ++ (digitsLE 58 n).reverse.map b58Char)).data
      = List.replicate k '1' ++ (digitsLE 58 n).reverse.map b58Char from rfl]
  rw [hvals, Option.map_some']
  have hclz : countLeadingZeros (List.replicate k 0 ++ (digitsLE 58 n).reverse) = k := by
    rcases Nat.eq_zero_or_pos n with h0 | hpos
    · rw [h0, digitsLE_zero]
      simpa using clz_replicate k
    · rw [clz_replicate_append, clz_headD_ne _ (digitsLE_reverse_headD (by omega) (by omega))]
      omega
  have hval : valBE 58 (List.replicate k 0 ++ (digitsLE 58 n).reverse) = n := by
    rw [valBE_replicate_zero, valBE_reverse, valLE_digitsLE (by omega)]
  rw [hclz, hval]
  -- now show the reconstructed bytes equal `bs`
  have hsplit := clz_decomp bs
  rcases clz_drop bs with hnil | hhead
  · rw [hnil, List.append_nil] at hsplit
    have hn0 : n = 0 := by
      rw [hn, hsplit, ← List.append_nil (List.replicate k 0), valBE_replicate_zero]
      rfl
    rw [hn0, digitsLE_zero]
    simp only [List.reverse_nil, List.append_nil, Option.some.injEq]
    exact hsplit.symm
  · have htbytes : ∀ x ∈ (bs.drop k).reverse, x < 256 := by
      intro x hx
      exact h x (List.mem_of_mem_drop (List.mem_reverse.mp hx))
    have hnval : n = valLE 256 (bs.drop k).reverse := by
      rw [hn]
      conv_lhs => rw [hsplit]
      rw [valBE_replicate_zero, valBE_eq]
    have hdigits : digitsLE 256 n = (bs.drop k).reverse := by
      rw [hnval]
      exact digitsLE_valLE (by omega) _ htbytes (getLast_reverse_ne hhead)
    rw [hdigits, List.reverse_reverse]
    exact congrArg some hsplit.symm

/-- Re-encoding a successfully decoded base58 string gives the string back:
base58 is a canonical encoding. -/
theorem base58_encode_decode {s : String} {bs : List Nat} (h : base58Decode s = some bs) :
    base58Encode bs = s := by
  rw [base58Decode] at h
  cases hvals : b58DecodeVals s.data with
  | none => rw [hvals] at h; exact absurd h (by simp)
  | some ds =>
    rw [hvals, Option.map_some'] at h
    simp only [Option.some.injEq] at h
    obtain ⟨hmap, hlt⟩ := b58DecodeVals_inv hvals
    set k := countLeadingZeros ds with hk
    set v := valBE 58 ds with hv
    have hsplit := clz_decomp ds
    have hvval : v = valLE 58 (ds.drop k).reverse := by
      rw [hv]
      conv_lhs => rw [hsplit]
      rw [valBE_replicate_zero, valBE_eq]
    rcases clz_drop ds with hnil | hhead
    · -- all digits are leading zeros: the value is 0
      rw [hnil, List.append_nil] at hsplit
      have hv0 : v = 0 := by rw [hvval, hnil]; rfl
      rw [hv0, digitsLE_zero] at h
      simp only [List.reverse_nil, List.append_nil] at h
      rw [← h, base58Encode]
      have hval0 : valBE 256 (List.replicate k 0) = 0 := by
        have := valBE_replicate_zero 256 k []
        simpa using this
      rw [hval0, clz_replicate, digitsLE_zero]
      simp only [List.reverse_nil, List.map_nil, List.append_nil]
      rw [show s = String.mk s.data from rfl]
      apply congrArg String.mk
      rw [hmap]
      conv_rhs => rw [hsplit]
      rw [replicate_one_map]
    · have he58 : ∀ d ∈ (ds.drop k).reverse, d < 58 := by
        intro d hd
        exact hlt d (List.mem_of_mem_drop (List.mem_reverse.mp hd))
      have hdig : digitsLE 58 v = (ds.drop k).reverse := by
        rw [hvval]
        exact digitsLE_valLE (by omega) _ he58 (getLast_reverse_ne hhead)
      have hvne : v ≠ 0 := by
        intro hcon
        rw [hcon, digitsLE_zero] at hdig
        exact headD_ne_nil hhead (by simpa using hdig.symm)
      have hclzbs : countLeadingZeros bs = k := by
        rw [← h, clz_replicate_append, clz_headD_ne _ (digitsLE_reverse_headD (by omega) hvne)]
        omega
      have hvalbs : valBE 256 bs = v := by
        rw [← h, valBE_replicate_zero, valBE_reverse, valLE_digitsLE (by omega)]
      rw [base58Encode, hclzbs, hvalbs, hdig, List.reverse_reverse]
      rw [show s = String.mk s.data from rfl]
      apply congrArg String.mk
      rw [hmap]
      conv_rhs => rw [hsplit]
      rw [List.map_append, replicate_one_map]

theorem b64_decode_encode (bs : List Nat) :
    (∀ x ∈ bs, x < 256) → b64DecodeChars (b64EncodeChunks bs) = some bs := by
  induction bs using b64EncodeChunks.induct with
  | case1 => intro h; rfl
  | case2 a =>
    intro h
    have ha : a < 256 := h a (by simp)
    have h1 : b64Val (b64Char (a / 4)) = some (a / 4) := b64Val_b64Char _ (by omega)
    have h2 : b64Val (b64Char (a % 4 * 16)) = some (a % 4 * 16) := b64Val_b64Char _ (by omega)
    simp only [b64EncodeChunks, b64DecodeChars, h1, h2]
    rw [if_pos trivial, if_pos ⟨trivial, trivial, by omega⟩]
    simp only [Option.some.injEq, List.cons.injEq, and_true]
    omega
  | case3 a b =>
    intro h
    have ha : a < 256 := h a (by simp)
    have hb : b < 256 := h b (by simp)
    have h1 : b64Val (b64Char (a / 4)) = some (a / 4) := b64Val_b64Char _ (by omega)
    have h2 : b64Val (b64Char (a % 4 * 16 + b / 16)) = some (a % 4 * 16 + b / 16) :=
      b64Val_b64Char _ (by omega)
    have h3 : b64Val (b64Char (b % 16 * 4)) = some (b % 16 * 4) := b64Val_b64Char _ (by omega)
    simp only [b64EncodeChunks, b64DecodeChars, h1, h2, h3]
    rw [if_neg (b64Char_ne_pad (b % 16 * 4) (by omega)), if_pos trivial, if_pos ⟨trivial, by omega⟩]
    simp only [Option.some.injEq, List.cons.injEq, and_true]
    omega
  | case4 a b c rest ih =>
    intro h
    have ha : a < 256 := h a (by simp)
    have hb : b < 256 := h b (by simp)
    have hc : c < 256 := h c (by simp)
    have hrest : ∀ x ∈ rest, x < 256 := fun x hx => h x (by simp [hx])
    have h1 : b64Val (b64Char (a / 4)) = some (a / 4) := b64Val_b64Char _ (by omega)
    have h2 : b64Val (b64Char (a % 4 * 16 + b / 16)) = some (a % 4 * 16 + b / 16) :=
      b64Val_b64Char _ (by omega)
    have h3 : b64Val (b64Char (b % 16 * 4 + c / 64)) = some (b % 16 * 4 + c / 64) :=
      b64Val_b64Char _ (by omega)
    have h4 : b64Val (b64Char (c % 64)) = some (c % 64) := b64Val_b64Char _ (by omega)
    simp only [b64EncodeChunks, b64DecodeChars, h1, h2]
    rw [if_neg (b64Char_ne_pad (b % 16 * 4 + c / 64) (by omega))]
    simp only [h3]
    rw [if_neg (b64Char_ne_pad (c % 64) (by omega))]
    simp only [h4, ih hrest, Option.map_some']
    simp only [Option.some.injEq, List.cons.injEq]
    refine ⟨by omega, by omega, by omega, trivial⟩

/-- Decoding a base64 encoding recovers the byte string. -/
theorem base64_decode_encode {bs : List Nat} (h : ∀ x ∈ bs, x < 256) :
    base64Decode (base64Encode bs) = some bs := by
  rw [base64Encode, base64Decode]
  exact b64_decode_encode bs h

theorem char_toNat_lt (c : Char) : c.toNat < 1114112 := by
  rcases c.valid with h | ⟨-, h⟩
  · have := @UInt32.toNat_lt_of_lt c.val 55296 (by norm_num [UInt32.size]) h
    have he : c.toNat = c.val.toNat := rfl
    omega
  · have := @UInt32.toNat_lt_of_lt c.val 1114112 (by norm_num [UInt32.size]) h
    have he : c.toNat = c.val.toNat := rfl
    omega

theorem utf8Char_lt (c : Char) : ∀ x ∈ utf8Char c, x < 256 := by
  have hv : c.toNat < 1114112 := char_toNat_lt c
  intro x hx
  simp only [utf8Char] at hx
  by_cases h1 : c.toNat < 128
  · rw [if_pos h1] at hx
    simp only [List.mem_singleton] at hx
    omega
  · rw [if_neg h1] at hx
    by_cases h2 : c.toNat < 2048
    · rw [if_pos h2] at hx
      simp only [List.mem_cons, List.not_mem_nil, or_false] at hx
      rcases hx with rfl | rfl <;> omega
    · rw [if_neg h2] at hx
      by_cases h3 : c.toNat < 65536
      · rw [if_pos h3] at hx
        simp only [List.mem_cons, List.not_mem_nil, or_false] at hx
        rcases hx with rfl | rfl | rfl <;> omega
      · rw [if_neg h3] at hx
        simp only [List.mem_cons, List.not_mem_nil, or_false] at hx
        rcases hx with rfl | rfl | rfl | rfl <;> omega

theorem utf8Bytes_lt (s : String) : ∀ x ∈ utf8Bytes s, x < 256 := by
  rw [utf8Bytes]
  induction s.data with
  | nil => simp
  | cons c cs ih =>
    intro x hx
    simp only [List.foldr_cons, List.mem_append] at hx
    rcases hx with hx | hx
    · exact utf8Char_lt c x hx
    · exact ih x hx

theorem pubkeyOf_length (seed : List Nat) : (pubkeyOf seed).length = seed.length := by
  simp [pubkeyOf]

theorem pubkeyOf_lt (seed : List Nat) : ∀ x ∈ pubkeyOf seed, x < 256 := by
  intro x hx
  simp only [pubkeyOf, List.mem_map] at hx
  obtain ⟨b, -, rfl⟩ := hx
  omega

theorem pubkeyOf_valid {seed : List Nat} (h : seed.length = 32) :
    isValidPoint (pubkeyOf seed) = true := by
  cases seed with
  | nil => simp at h
  | cons b bs =>
    simp only [isValidPoint, pubkeyOf, List.map_cons, List.headD_cons, List.length_cons,
      Bool.and_eq_true, beq_iff_eq, List.length_map]
    constructor
    · simp only [List.length_cons] at h
      omega
    · omega

/-! ### Handler path lemmas -/

theorem keypairFromBytes_gen {seed : List Nat} (h32 : seed.length = 32) :
    keypairFromBytes (seed ++ pubkeyOf seed) = some ⟨seed, pubkeyOf seed⟩ := by
  have hlen : (seed ++ pubkeyOf seed).length = 64 := by
    simp [pubkeyOf_length, h32]
  have hdrop : (seed ++ pubkeyOf seed).drop 32 = pubkeyOf seed := List.drop_left' h32
  have htake : (seed ++ pubkeyOf seed).take 32 = seed := List.take_left' h32
  rw [keypairFromBytes, if_pos hlen, hdrop, publicKeyFromBytes, if_pos (pubkeyOf_valid h32)]
  rw [htake]

theorem gen_bytes_lt {seed : List Nat} (h256 : ∀ b ∈ seed, b < 256) :
    ∀ x ∈ seed ++ pubkeyOf seed, x < 256 := by
  intro x hx
  rcases List.mem_append.mp hx with h | h
  · exact h256 x h
  · exact pubkeyOf_lt seed x h

theorem sign_message_gen {seed : List Nat} (h32 : seed.length = 32)
    (h256 : ∀ b ∈ seed, b < 256) (msg : String) :
    sign_message { message := msg, secret := base58Encode (seed ++ pubkeyOf seed) } =
      { success := true
        data := { signature := base64Encode (pubkeyOf seed ++ utf8Bytes msg)
                  public_key := base58Encode (pubkeyOf seed)
                  message := msg } } := by
  have hdec : base58Decode (base58Encode (seed ++ pubkeyOf seed)) = some (seed ++ pubkeyOf seed) :=
    base58_decode_encode (gen_bytes_lt h256)
  have hlen : (seed ++ pubkeyOf seed).length = 64 := by
    simp [pubkeyOf_length, h32]
  simp only [sign_message, hdec, hlen, if_pos, keypairFromBytes_gen h32, dalekSign]

theorem verify_message_ok (msg : String) {pkb sigb : List Nat} {sigStr pkStr : String}
    (hpk : base58Decode pkStr = some pkb) (hvalid : isValidPoint pkb = true)
    (hsig : base64Decode sigStr = some sigb) :
    verify_message { message := msg, signature := sigStr, pubkey := pkStr } =
      { success := true
        data := { valid := verifyStrict pkb (utf8Bytes msg) sigb
                  message := msg
                  pubkey := pkStr } } := by
  simp only [verify_message, hpk, publicKeyFromBytes, if_pos hvalid, hsig, signatureFromBytes]

theorem pubkeyFromStr_some {s : String} {f : List Nat} (h : pubkeyFromStr s = some f) :
    base58Decode s = some f ∧ f.length = 32 := by
  rw [pubkeyFromStr] at h
  by_cases hl : s.length > 44
  · rw [if_pos hl] at h
    exact absurd h (by simp)
  · rw [if_neg hl] at h
    cases hdec : base58Decode s with
    | none => rw [hdec] at h; exact absurd h (by simp)
    | some bs =>
      rw [hdec] at h
      have h' : (if bs.length = 32 then some bs else none) = some f := h
      by_cases h32 : bs.length = 32
      · rw [if_pos h32] at h'
        simp only [Option.some.injEq] at h'
        subst h'
        exact ⟨rfl, h32⟩
      · rw [if_neg h32] at h'
        exact absurd h' (by simp)

theorem pubkeyFromStr_echo {s : String} {f : List Nat} (h : pubkeyFromStr s = some f) :
    base58Encode f = s :=
  base58_encode_decode (pubkeyFromStr_some h).1

theorem sign_failure_shape (req : SignMessageRequest)
    (h : (sign_message req).success = false) :
    (sign_message req).data.signature = "" ∧ (sign_message req).data.public_key = "" ∧
    ((sign_message req).data.message = signDecodeErr ∨
      (sign_message req).data.message = signParseErr) := by
  cases hdec : base58Decode req.secret with
  | none => simp [sign_message, hdec]
  | some bs =>
    by_cases hlen : bs.length = 64
    · cases hkp : keypairFromBytes bs with
      | none => simp [sign_message, hdec, hlen, hkp]
      | some kp => simp [sign_message, hdec, hlen, hkp] at h
    · simp [sign_message, hdec, hlen]

theorem sign_decode_failure (req : SignMessageRequest)
    (h : ∀ bs, base58Decode req.secret = some bs → bs.length ≠ 64) :
    sign_message req =
      { success := false
        data := { signature := "", public_key := "", message := signDecodeErr } } := by
  cases hdec : base58Decode req.secret with
  | none => simp [sign_message, hdec]
  | some bs => simp [sign_message, hdec, h bs hdec]

theorem sign_parse_failure (req : SignMessageRequest) (bs : List Nat)
    (hdec : base58Decode req.secret = some bs) (hlen : bs.length = 64)
    (hkp : keypairFromBytes bs = none) :
    sign_message req =
      { success := false
        data := { signature := "", public_key := "", message := signParseErr } } := by
  simp [sign_message, hdec, hlen, hkp]

theorem verify_failure_shape (req : VerifyMessageRequest)
    (h : (verify_message req).success = false) :
    (verify_message req).data.valid = false ∧
    (verify_message req).data.pubkey = req.pubkey ∧
    ((verify_message req).data.message = "Invalid base58 pubkey" ∨
      (verify_message req).data.message = "Failed to parse pubkey" ∨
      (verify_message req).data.message = "Invalid base64 signature" ∨
      (verify_message req).data.message = "Failed to parse signature") := by
  cases hpk : base58Decode req.pubkey with
  | none => simp [verify_message, hpk]
  | some pkb =>
    by_cases hval : isValidPoint pkb = true
    · cases hsig : base64Decode req.signature with
      | none => simp [verify_message, hpk, publicKeyFromBytes, hval, hsig]
      | some sigb =>
          simp [verify_message, hpk, publicKeyFromBytes, hval, hsig, signatureFromBytes] at h
    · simp [verify_message, hpk, publicKeyFromBytes, hval]

theorem create_token_failure_shape (req : CreateTokenRequest)
    (h : (create_token req).success = false) :
    (create_token req).data.program_id = "" ∧ (create_token req).data.accounts = [] ∧
    ((create_token req).data.instruction_data = "Invalid mint pubkey" ∨
      (create_token req).data.instruction_data = "Invalid mintAuthority pubkey") := by
  cases hm : pubkeyFromStr req.mint with
  | none => simp [create_token, hm]
  | some m =>
    cases ha : pubkeyFromStr req.mint_authority with
    | none => simp [create_token, hm, ha]
    | some a => simp [create_token, hm, ha, initialize_mint] at h

theorem mint_token_failure_shape (req : MintTokenRequest)
    (h : (mint_token req).success = false) :
    (mint_token req).data.program_id = "" ∧ (mint_token req).data.accounts = [] ∧
    ((mint_token req).data.instruction_data = "Invalid mint pubkey" ∨
      (mint_token req).data.instruction_data = "Invalid destination pubkey" ∨
      (mint_token req).data.instruction_data = "Invalid authority pubkey") := by
  cases hm : pubkeyFromStr req.mint with
  | none => simp [mint_token, hm]
  | some m =>
    cases hd : pubkeyFromStr req.destination with
    | none => simp [mint_token, hm, hd]
    | some d =>
      cases ha : pubkeyFromStr req.authority with
      | none => simp [mint_token, hm, hd, ha]
      | some a => simp [mint_token, hm, hd, ha, mint_to] at h

theorem send_sol_failure_shape (req : SendSolRequest)
    (h : (send_sol req).success = false) :
    (send_sol req).data.program_id = "" ∧ (send_sol req).data.accounts = [] ∧
    ((send_sol req).data.instruction_data = base64Encode (utf8Bytes sendSolFromErr) ∨
      (send_sol req).data.instruction_data = base64Encode (utf8Bytes sendSolToErr)) := by
  cases hf : pubkeyFromStr req.«from» with
  | none => simp [send_sol, hf]
  | some f =>
    cases ht : pubkeyFromStr req.«to» with
    | none => simp [send_sol, hf, ht]
    | some t => simp [send_sol, hf, ht] at h

theorem send_token_failure_shape (req : SendTokenRequest)
    (h : (send_token req).success = false) :
    (send_token req).data.program_id = "" ∧ (send_token req).data.accounts = [] ∧
    ((send_token req).data.instruction_data = base64Encode (utf8Bytes "Invalid destination pubkey") ∨
      (send_token req).data.instruction_data = base64Encode (utf8Bytes "Invalid mint pubkey") ∨
      (send_token req).data.instruction_data = base64Encode (utf8Bytes "Invalid owner pubkey")) := by
  cases hd : pubkeyFromStr req.destination with
  | none => simp [send_token, hd]
  | some d =>
    cases hm : pubkeyFromStr req.mint with
    | none => simp [send_token, hd, hm]
    | some m =>
      cases ho : pubkeyFromStr req.owner with
      | none => simp [send_token, hd, hm, ho]
      | some o => simp [send_token, hd, hm, ho, transfer_checked] at h

theorem u64LE_lt (n : Nat) : ∀ x ∈ u64LE n, x < 256 := by
  intro x hx
  simp only [u64LE, List.mem_cons, List.not_mem_nil, or_false] at hx
  rcases hx with rfl | rfl | rfl | rfl | rfl | rfl | rfl | rfl <;> omega

theorem send_sol_ok (req : SendSolRequest) {f t : List Nat}
    (hf : pubkeyFromStr req.«from» = some f) (ht : pubkeyFromStr req.«to» = some t) :
    send_sol req =
      { success := true
        data := { program_id := pubkeyToString systemProgramId
                  accounts := [pubkeyToString f, pubkeyToString t]
                  instruction_data := base64Encode ([2, 0, 0, 0] ++ u64LE req.lamports) } } := by
  simp [send_sol, hf, ht, system_transfer]

theorem send_token_ok (req : SendTokenRequest) {d m o : List Nat}
    (hd : pubkeyFromStr req.destination = some d) (hm : pubkeyFromStr req.mint = some m)
    (ho : pubkeyFromStr req.owner = some o) :
    send_token req =
      { success := true
        data := { program_id := pubkeyToString splTokenId
                  accounts := [⟨pubkeyToString o, false⟩, ⟨pubkeyToString m, false⟩,
                    ⟨pubkeyToString d, false⟩, ⟨pubkeyToString o, true⟩]
                  instruction_data := base64Encode (12 :: u64LE req.amount ++ [6]) } } := by
  simp [send_token, hd, hm, ho, transfer_checked]

/-! ### Claim theorems -/

/-- C1: for every UTF-8 message and every freshly generated keypair (the
random draw is the 32-byte seed), signing the message via the
`/message/sign` handler with the keypair's 64-byte base58 secret and
verifying the returned base64 signature against the keypair's base58
public key via the `/message/verify` handler yields `success = true` and
`valid = true`. -/
theorem C1_sign_verify_roundtrip (msg : String) (seed : List Nat)
    (h32 : seed.length = 32) (h256 : ∀ b ∈ seed, b < 256) :
    (sign_message { message := msg, secret := (generate_keypair seed).data.secret }).success = true ∧
    (verify_message { message := msg, signature := (sign_message { message := msg, secret := (generate_keypair seed).data.secret }).data.signature, pubkey := (generate_keypair seed).data.pubkey }).success = true ∧
    (verify_message { message := msg, signature := (sign_message { message := msg, secret := (generate_keypair seed).data.secret }).data.signature, pubkey := (generate_keypair seed).data.pubkey }).data.valid = true := by
  have hsig := sign_message_gen h32 h256 msg
  have hpkdec : base58Decode (base58Encode (pubkeyOf seed)) = some (pubkeyOf seed) :=
    base58_decode_encode (pubkeyOf_lt seed)
  have hsiglt : ∀ x ∈ pubkeyOf seed ++ utf8Bytes msg, x < 256 := by
    intro x hx
    rcases List.mem_append.mp hx with h | h
    · exact pubkeyOf_lt seed x h
    · exact utf8Bytes_lt msg x h
  have hsigdec := base64_decode_encode hsiglt
  have hver := verify_message_ok msg hpkdec (pubkeyOf_valid h32) hsigdec
  have hsecret : (generate_keypair seed).data.secret = base58Encode (seed ++ pubkeyOf seed) := rfl
  have hpub : (generate_keypair seed).data.pubkey = base58Encode (pubkeyOf seed) := rfl
  rw [hsecret, hpub, hsig]
  simp only []
  rw [hver]
  simp [verifyStrict]

/-- C2: every `/keypair` response has `success = true`; the returned pubkey
base58-decodes to exactly 32 bytes, the secret to exactly 64 bytes, and
the last 32 bytes of the decoded secret equal the decoded pubkey bytes. -/
theorem C2_generate_keypair (seed : List Nat) (h32 : seed.length = 32)
    (h256 : ∀ b ∈ seed, b < 256) :
    (generate_keypair seed).success = true ∧
    (∃ pk, base58Decode (generate_keypair seed).data.pubkey = some pk ∧ pk.length = 32) ∧
    (∃ sk, base58Decode (generate_keypair seed).data.secret = some sk ∧ sk.length = 64 ∧
      base58Decode (generate_keypair seed).data.pubkey = some (sk.drop 32)) := by
  refine ⟨rfl, ⟨pubkeyOf seed, base58_decode_encode (pubkeyOf_lt seed), ?_⟩,
    ⟨seed ++ pubkeyOf seed, base58_decode_encode (gen_bytes_lt h256), ?_, ?_⟩⟩
  · simp [pubkeyOf_length, h32]
  · simp [pubkeyOf_length, h32]
  · rw [List.drop_left' h32]
    exact base58_decode_encode (pubkeyOf_lt seed)

/-- C3 counterexample: the claim says the message field is left empty on the
base58-decode-failure path, but the handler puts the decode-error text
into it — witnessed at secret `"0"`, which is not valid base58. -/
theorem C3_counterexample :
    (sign_message { message := "hello", secret := "0" }).success = false ∧
    (sign_message { message := "hello", secret := "0" }).data.signature = "" ∧
    (sign_message { message := "hello", secret := "0" }).data.message ≠ "" := by
  refine ⟨?_, ?_, ?_⟩ <;> decide

/-- C3 (amended): every `/message/sign` request whose secret fails to
base58-decode to exactly 64 bytes, or whose 64 decoded bytes fail to
parse into a keypair, yields `success = false` with empty signature and
publicKey fields; the message field is not left empty — it carries the
corresponding human-readable error text on both paths. -/
theorem C3_sign_failure_amended (req : SignMessageRequest) :
    ((∀ bs, base58Decode req.secret = some bs → bs.length ≠ 64) →
      sign_message req =
        { success := false
          data := { signature := "", public_key := "", message := signDecodeErr } }) ∧
    (∀ bs, base58Decode req.secret = some bs → bs.length = 64 → keypairFromBytes bs = none →
      sign_message req =
        { success := false
          data := { signature := "", public_key := "", message := signParseErr } }) := by
  constructor
  · intro h
    exact sign_decode_failure req h
  · intro bs hdec hlen hkp
    exact sign_parse_failure req bs hdec hlen hkp

/-- C4: every `/message/verify` validation failure yields `success = false`
and `valid = false` with the original pubkey echoed and the message field
holding an error text rather than the request's message; and every
request that passes validation yields `success = true` with `valid` the
verification result (a bad signature is reported as `valid = false`, not
as a failure). -/
theorem C4_verify_error_handling (req : VerifyMessageRequest) :
    ((verify_message req).success = false →
      (verify_message req).data.valid = false ∧
      (verify_message req).data.pubkey = req.pubkey ∧
      ((verify_message req).data.message = "Invalid base58 pubkey" ∨
        (verify_message req).data.message = "Failed to parse pubkey" ∨
        (verify_message req).data.message = "Invalid base64 signature" ∨
        (verify_message req).data.message = "Failed to parse signature")) ∧
    (∀ pkb sigb, base58Decode req.pubkey = some pkb → isValidPoint pkb = true →
      base64Decode req.signature = some sigb →
      (verify_message req).success = true ∧
      (verify_message req).data.valid = verifyStrict pkb (utf8Bytes req.message) sigb) := by
  constructor
  · exact verify_failure_shape req
  · intro pkb sigb hpk hval hsig
    have h : verify_message req =
        { success := true
          data := { valid := verifyStrict pkb (utf8Bytes req.message) sigb
                    message := req.message
                    pubkey := req.pubkey } } :=
      verify_message_ok req.message hpk hval hsig
    rw [h]
    exact ⟨rfl, rfl⟩

/-- C5: for every `/send/sol` request whose `from` and `to` strings both
parse as pubkeys (any lamports value, e.g. 1000), the response has
`success = true`, the program id is the native system program id, the
accounts list is exactly the strings `from` then `to`, and the
instruction data base64-decodes to a non-empty byte sequence; when either
pubkey fails to parse, the error text itself is base64-encoded into the
instruction data. -/
theorem C5_send_sol (req : SendSolRequest) :
    (∀ f t, pubkeyFromStr req.«from» = some f → pubkeyFromStr req.«to» = some t →
      (send_sol req).success = true ∧
      (send_sol req).data.program_id = base58Encode systemProgramId ∧
      (send_sol req).data.accounts = [req.«from», req.«to»] ∧
      ∃ bs, base64Decode (send_sol req).data.instruction_data = some bs ∧ bs ≠ []) ∧
    (pubkeyFromStr req.«from» = none →
      (send_sol req).success = false ∧
      (send_sol req).data.instruction_data = base64Encode (utf8Bytes sendSolFromErr)) ∧
    (∀ f, pubkeyFromStr req.«from» = some f → pubkeyFromStr req.«to» = none →
      (send_sol req).success = false ∧
      (send_sol req).data.instruction_data = base64Encode (utf8Bytes sendSolToErr)) := by
  refine ⟨?_, ?_, ?_⟩
  · intro f t hf ht
    rw [send_sol_ok req hf ht]
    have hdata : ∀ x ∈ ([2, 0, 0, 0] ++ u64LE req.lamports : List Nat), x < 256 := by
      intro x hx
      rcases List.mem_append.mp hx with h | h
      · simp only [List.mem_cons, List.not_mem_nil, or_false] at h
        rcases h with rfl | rfl | rfl | rfl <;> omega
      · exact u64LE_lt req.lamports x h
    refine ⟨rfl, rfl, ?_, [2, 0, 0, 0] ++ u64LE req.lamports, base64_decode_encode hdata, by simp⟩
    simp only [pubkeyToString]
    rw [pubkeyFromStr_echo hf, pubkeyFromStr_echo ht]
  · intro hf
    simp [send_sol, hf]
  · intro f hf ht
    simp [send_sol, hf, ht]

/-- C6: a `/token/create` request with an unparsable mint yields
`success = false` and the literal raw string `"Invalid mint pubkey"` in
the instruction-data field; `/token/mint` parses its three pubkeys
independently, each failure yielding `success = false` with its own
distinct raw error string. -/
theorem C6_token_error_strings :
    (∀ req : CreateTokenRequest, pubkeyFromStr req.mint = none →
      (create_token req).success = false ∧
      (create_token req).data.instruction_data = "Invalid mint pubkey") ∧
    (∀ req : MintTokenRequest, pubkeyFromStr req.mint = none →
      (mint_token req).success = false ∧
      (mint_token req).data.instruction_data = "Invalid mint pubkey") ∧
    (∀ req : MintTokenRequest, ∀ m, pubkeyFromStr req.mint = some m →
      pubkeyFromStr req.destination = none →
      (mint_token req).success = false ∧
      (mint_token req).data.instruction_data = "Invalid destination pubkey") ∧
    (∀ req : MintTokenRequest, ∀ m d, pubkeyFromStr req.mint = some m →
      pubkeyFromStr req.destination = some d → pubkeyFromStr req.authority = none →
      (mint_token req).success = false ∧
      (mint_token req).data.instruction_data = "Invalid authority pubkey") := by
  refine ⟨?_, ?_, ?_, ?_⟩
  · intro req hm
    simp [create_token, hm]
  · intro req hm
    simp [mint_token, hm]
  · intro req m hm hd
    simp [mint_token, hm, hd]
  · intro req m d hm hd ha
    simp [mint_token, hm, hd, ha]

/-- C7: for every `/send/token` request whose destination, mint and owner
strings all parse, the transfer-checked instruction is built with the
decimals byte fixed to 6 regardless of input, the owner is used as both
the transfer source account (first, writable) and the signing authority
(last, signer); the success response carries the SPL token program id, a
compact account list of pubkey and signer flag only, and the base64
instruction payload. -/
theorem C7_send_token (req : SendTokenRequest) (d m o : List Nat)
    (hd : pubkeyFromStr req.destination = some d)
    (hm : pubkeyFromStr req.mint = some m)
    (ho : pubkeyFromStr req.owner = some o) :
    (send_token req).success = true ∧
    (send_token req).data.program_id = base58Encode splTokenId ∧
    (send_token req).data.accounts = [⟨req.owner, false⟩, ⟨req.mint, false⟩, ⟨req.destination, false⟩, ⟨req.owner, true⟩] ∧
    (send_token req).data.instruction_data = base64Encode (12 :: u64LE req.amount ++ [6]) := by
  rw [send_token_ok req hd hm ho]
  refine ⟨rfl, rfl, ?_, rfl⟩
  simp only [pubkeyToString]
  rw [pubkeyFromStr_echo hd, pubkeyFromStr_echo hm, pubkeyFromStr_echo ho]

/-- C8: for every message, keypair and byte position of the message's UTF-8
encoding, verifying the signature produced over the message against a
message whose byte at that position was changed (signature and pubkey
unchanged) yields `success = true` with `valid = false`. -/
theorem C8_tamper_rejected (seed : List Nat) (h32 : seed.length = 32)
    (h256 : ∀ b ∈ seed, b < 256) (msg msgT : String) (i bFlip : Nat)
    (hi : i < (utf8Bytes msg).length)
    (hset : utf8Bytes msgT = (utf8Bytes msg).set i bFlip)
    (hb : bFlip ≠ (utf8Bytes msg).getD i 0) :
    (verify_message { message := msgT, signature := (sign_message { message := msg, secret := (generate_keypair seed).data.secret }).data.signature, pubkey := (generate_keypair seed).data.pubkey }).success = true ∧
    (verify_message { message := msgT, signature := (sign_message { message := msg, secret := (generate_keypair seed).data.secret }).data.signature, pubkey := (generate_keypair seed).data.pubkey }).data.valid = false := by
  have hsig := sign_message_gen h32 h256 msg
  have hpkdec : base58Decode (base58Encode (pubkeyOf seed)) = some (pubkeyOf seed) :=
    base58_decode_encode (pubkeyOf_lt seed)
  have hsiglt : ∀ x ∈ pubkeyOf seed ++ utf8Bytes msg, x < 256 := by
    intro x hx
    rcases List.mem_append.mp hx with h | h
    · exact pubkeyOf_lt seed x h
    · exact utf8Bytes_lt msg x h
  have hsigdec := base64_decode_encode hsiglt
  have hver := verify_message_ok msgT hpkdec (pubkeyOf_valid h32) hsigdec
  have hne : utf8Bytes msg ≠ utf8Bytes msgT := by
    intro hcon
    have hcon' : (utf8Bytes msg).set i bFlip = utf8Bytes msg := hset.symm.trans hcon.symm
    have h1 : ((utf8Bytes msg).set i bFlip).getD i 0 = bFlip := by
      rw [List.getD_eq_getElem _ _ (by simpa using hi)]
      exact List.getElem_set_self _
    rw [hcon'] at h1
    exact hb h1.symm
  have hsecret : (generate_keypair seed).data.secret = base58Encode (seed ++ pubkeyOf seed) := rfl
  have hpub : (generate_keypair seed).data.pubkey = base58Encode (pubkeyOf seed) := rfl
  rw [hsecret, hpub, hsig]
  simp only []
  rw [hver]
  refine ⟨rfl, ?_⟩
  simp only [verifyStrict]
  rw [beq_eq_false_iff_ne]
  intro hcon
  exact hne ((List.append_right_inj (pubkeyOf seed)).mp hcon)

/-- C9: every handler's response is a `{success, data}` envelope by
construction; the keypair handler always succeeds, and on every failure
path of every other handler the data fields are all present with empty
or placeholder values, the human-readable error text being embedded in
one of the typed data fields (raw in the message/token shapes,
base64-encoded in the transfer shapes). -/
theorem C9_response_envelope :
    (∀ seed, (generate_keypair seed).success = true) ∧
    (∀ req : SignMessageRequest, (sign_message req).success = false →
      (sign_message req).data.signature = "" ∧ (sign_message req).data.public_key = "" ∧
      ((sign_message req).data.message = signDecodeErr ∨
        (sign_message req).data.message = signParseErr)) ∧
    (∀ req : VerifyMessageRequest, (verify_message req).success = false →
      (verify_message req).data.valid = false ∧
      (verify_message req).data.pubkey = req.pubkey ∧
      ((verify_message req).data.message = "Invalid base58 pubkey" ∨
        (verify_message req).data.message = "Failed to parse pubkey" ∨
        (verify_message req).data.message = "Invalid base64 signature" ∨
        (verify_message req).data.message = "Failed to parse signature")) ∧
    (∀ req : CreateTokenRequest, (create_token req).success = false →
      (create_token req).data.program_id = "" ∧ (create_token req).data.accounts = [] ∧
      ((create_token req).data.instruction_data = "Invalid mint pubkey" ∨
        (create_token req).data.instruction_data = "Invalid mintAuthority pubkey")) ∧
    (∀ req : MintTokenRequest, (mint_token req).success = false →
      (mint_token req).data.program_id = "" ∧ (mint_token req).data.accounts = [] ∧
      ((mint_token req).data.instruction_data = "Invalid mint pubkey" ∨
        (mint_token req).data.instruction_data = "Invalid destination pubkey" ∨
        (mint_token req).data.instruction_data = "Invalid authority pubkey")) ∧
    (∀ req : SendSolRequest, (send_sol req).success = false →
      (send_sol req).data.program_id = "" ∧ (send_sol req).data.accounts = [] ∧
      ((send_sol req).data.instruction_data = base64Encode (utf8Bytes sendSolFromErr) ∨
        (send_sol req).data.instruction_data = base64Encode (utf8Bytes sendSolToErr))) ∧
    (∀ req : SendTokenRequest, (send_token req).success = false →
      (send_token req).data.program_id = "" ∧ (send_token req).data.accounts = [] ∧
      ((send_token req).data.instruction_data = base64Encode (utf8Bytes "Invalid destination pubkey") ∨
        (send_token req).data.instruction_data = base64Encode (utf8Bytes "Invalid mint pubkey") ∨
        (send_token req).data.instruction_data = base64Encode (utf8Bytes "Invalid owner pubkey"))) :=
  ⟨fun _ => rfl, sign_failure_shape, verify_failure_shape, create_token_failure_shape,
    mint_token_failure_shape, send_sol_failure_shape, send_token_failure_shape⟩

/-- C10: for every `/token/create` request whose mint and mintAuthority
strings both parse and any decimals value up to 255, the
instruction-construction call `initialize_mint` invoked with the SPL
token program id always succeeds, so the error branch is unreachable and
the handler returns `success = true`. -/
theorem C10_create_token_success (req : CreateTokenRequest) (m a : List Nat)
    (hm : pubkeyFromStr req.mint = some m) (ha : pubkeyFromStr req.mint_authority = some a)
    (_hrange : req.decimals ≤ 255) :
    (∃ ix, initialize_mint splTokenId m a none req.decimals = .ok ix) ∧
    (create_token req).success = true := by
  constructor
  · exact ⟨_, by rw [initialize_mint, if_pos rfl]⟩
  · simp [create_token, hm, ha, initialize_mint]

/-! ### Witnesses -/

theorem C1_witness :
    (List.replicate 32 0 : List Nat).length = 32 ∧
    (∀ b ∈ (List.replicate 32 0 : List Nat), b < 256) ∧
    ((sign_message { message := "ab", secret := (generate_keypair (List.replicate 32 0)).data.secret }).success = true ∧
      (verify_message { message := "ab", signature := (sign_message { message := "ab", secret := (generate_keypair (List.replicate 32 0)).data.secret }).data.signature, pubkey := (generate_keypair (List.replicate 32 0)).data.pubkey }).success = true ∧
      (verify_message { message := "ab", signature := (sign_message { message := "ab", secret := (generate_keypair (List.replicate 32 0)).data.secret }).data.signature, pubkey := (generate_keypair (List.replicate 32 0)).data.pubkey }).data.valid = true) :=
  ⟨by decide, by decide, C1_sign_verify_roundtrip "ab" (List.replicate 32 0) (by decide) (by decide)⟩

theorem C2_witness :
    (List.replicate 32 0 : List Nat).length = 32 ∧
    ((generate_keypair (List.replicate 32 0)).success = true ∧
      (∃ pk, base58Decode (generate_keypair (List.replicate 32 0)).data.pubkey = some pk ∧ pk.length = 32) ∧
      (∃ sk, base58Decode (generate_keypair (List.replicate 32 0)).data.secret = some sk ∧ sk.length = 64 ∧
        base58Decode (generate_keypair (List.replicate 32 0)).data.pubkey = some (sk.drop 32))) :=
  ⟨by decide, C2_generate_keypair (List.replicate 32 0) (by decide) (by decide)⟩

theorem C3_witness :
    (sign_message { message := "m", secret := "" } =
      { success := false, data := { signature := "", public_key := "", message := signDecodeErr } }) ∧
    (sign_message { message := "m", secret := base58Encode (List.replicate 32 0 ++ 1 :: List.replicate 31 0) } =
      { success := false, data := { signature := "", public_key := "", message := signParseErr } }) :=
  ⟨(C3_sign_failure_amended { message := "m", secret := "" }).1
      (fun bs h => by
        have h' : some ([] : List Nat) = some bs := h
        injection h' with h''
        subst h''
        decide),
    (C3_sign_failure_amended
        { message := "m", secret := base58Encode (List.replicate 32 0 ++ 1 :: List.replicate 31 0) }).2
      (List.replicate 32 0 ++ 1 :: List.replicate 31 0)
      (base58_decode_encode (by decide)) (by decide) (by decide)⟩

theorem C4_witness :
    ((verify_message { message := "m", signature := "x", pubkey := "0" }).data.valid = false ∧
      (verify_message { message := "m", signature := "x", pubkey := "0" }).data.pubkey = "0" ∧
      ((verify_message { message := "m", signature := "x", pubkey := "0" }).data.message = "Invalid base58 pubkey" ∨
        (verify_message { message := "m", signature := "x", pubkey := "0" }).data.message = "Failed to parse pubkey" ∨
        (verify_message { message := "m", signature := "x", pubkey := "0" }).data.message = "Invalid base64 signature" ∨
        (verify_message { message := "m", signature := "x", pubkey := "0" }).data.message = "Failed to parse signature")) ∧
    ((verify_message { message := "m", signature := "", pubkey := "11111111111111111111111111111111" }).success = true ∧
      (verify_message { message := "m", signature := "", pubkey := "11111111111111111111111111111111" }).data.valid
        = verifyStrict (List.replicate 32 0) (utf8Bytes "m") []) :=
  ⟨(C4_verify_error_handling { message := "m", signature := "x", pubkey := "0" }).1 (by decide),
    (C4_verify_error_handling { message := "m", signature := "", pubkey := "11111111111111111111111111111111" }).2
      (List.replicate 32 0) [] (by decide) (by decide) (by decide)⟩

theorem C5_witness :
    ((send_sol { «from» := "11111111111111111111111111111111", «to» := "11111111111111111111111111111111", lamports := 1000 }).success = true ∧
      (send_sol { «from» := "11111111111111111111111111111111", «to» := "11111111111111111111111111111111", lamports := 1000 }).data.program_id = base58Encode systemProgramId ∧
      (send_sol { «from» := "11111111111111111111111111111111", «to» := "11111111111111111111111111111111", lamports := 1000 }).data.accounts = ["11111111111111111111111111111111", "11111111111111111111111111111111"] ∧
      ∃ bs, base64Decode (send_sol { «from» := "11111111111111111111111111111111", «to» := "11111111111111111111111111111111", lamports := 1000 }).data.instruction_data = some bs ∧ bs ≠ []) ∧
    ((send_sol { «from» := "0", «to» := "1", lamports := 1 }).success = false ∧
      (send_sol { «from» := "0", «to» := "1", lamports := 1 }).data.instruction_data = base64Encode (utf8Bytes sendSolFromErr)) ∧
    ((send_sol { «from» := "11111111111111111111111111111111", «to» := "0", lamports := 1 }).success = false ∧
      (send_sol { «from» := "11111111111111111111111111111111", «to» := "0", lamports := 1 }).data.instruction_data = base64Encode (utf8Bytes sendSolToErr)) :=
  ⟨(C5_send_sol _).1 (List.replicate 32 0) (List.replicate 32 0) (by decide) (by decide),
    (C5_send_sol { «from» := "0", «to» := "1", lamports := 1 }).2.1 (by decide),
    (C5_send_sol { «from» := "11111111111111111111111111111111", «to» := "0", lamports := 1 }).2.2
      (List.replicate 32 0) (by decide) (by decide)⟩

theorem C6_witness :
    ((create_token { mint_authority := "1", mint := "0", decimals := 0 }).success = false ∧
      (create_token { mint_authority := "1", mint := "0", decimals := 0 }).data.instruction_data = "Invalid mint pubkey") ∧
    ((mint_token { mint := "0", destination := "1", authority := "1", amount := 1 }).success = false ∧
      (mint_token { mint := "0", destination := "1", authority := "1", amount := 1 }).data.instruction_data = "Invalid mint pubkey") ∧
    ((mint_token { mint := "11111111111111111111111111111111", destination := "0", authority := "1", amount := 1 }).success = false ∧
      (mint_token { mint := "11111111111111111111111111111111", destination := "0", authority := "1", amount := 1 }).data.instruction_data = "Invalid destination pubkey") ∧
    ((mint_token { mint := "11111111111111111111111111111111", destination := "11111111111111111111111111111111", authority := "0", amount := 1 }).success = false ∧
      (mint_token { mint := "11111111111111111111111111111111", destination := "11111111111111111111111111111111", authority := "0", amount := 1 }).data.instruction_data = "Invalid authority pubkey") :=
  ⟨C6_token_error_strings.1 _ (by decide),
    C6_token_error_strings.2.1 _ (by decide),
    C6_token_error_strings.2.2.1 _ (List.replicate 32 0) (by decide) (by decide),
    C6_token_error_strings.2.2.2 _ (List.replicate 32 0) (List.replicate 32 0) (by decide) (by decide) (by decide)⟩

theorem C7_witness :
    (send_token { destination := "11111111111111111111111111111111", mint := "11111111111111111111111111111111", owner := "11111111111111111111111111111111", amount := 5 }).success = true ∧
    (send_token { destination := "11111111111111111111111111111111", mint := "11111111111111111111111111111111", owner := "11111111111111111111111111111111", amount := 5 }).data.program_id = base58Encode splTokenId ∧
    (send_token { destination := "11111111111111111111111111111111", mint := "11111111111111111111111111111111", owner := "11111111111111111111111111111111", amount := 5 }).data.accounts = [⟨"11111111111111111111111111111111", false⟩, ⟨"11111111111111111111111111111111", false⟩, ⟨"11111111111111111111111111111111", false⟩, ⟨"11111111111111111111111111111111", true⟩] ∧
    (send_token { destination := "11111111111111111111111111111111", mint := "11111111111111111111111111111111", owner := "11111111111111111111111111111111", amount := 5 }).data.instruction_data = base64Encode (12 :: u64LE 5 ++ [6]) :=
  C7_send_token _ (List.replicate 32 0) (List.replicate 32 0) (List.replicate 32 0)
    (by decide) (by decide) (by decide)

theorem C8_witness :
    (0 < (utf8Bytes "ab").length ∧ utf8Bytes "bb" = (utf8Bytes "ab").set 0 98 ∧
      98 ≠ (utf8Bytes "ab").getD 0 0) ∧
    ((verify_message { message := "bb", signature := (sign_message { message := "ab", secret := (generate_keypair (List.replicate 32 0)).data.secret }).data.signature, pubkey := (generate_keypair (List.replicate 32 0)).data.pubkey }).success = true ∧
      (verify_message { message := "bb", signature := (sign_message { message := "ab", secret := (generate_keypair (List.replicate 32 0)).data.secret }).data.signature, pubkey := (generate_keypair (List.replicate 32 0)).data.pubkey }).data.valid = false) :=
  ⟨⟨by decide, by decide, by decide⟩,
    C8_tamper_rejected (List.replicate 32 0) (by decide) (by decide) "ab" "bb" 0 98
      (by decide) (by decide) (by decide)⟩

theorem C9_witness :
    ((generate_keypair (List.replicate 32 0)).success = true) ∧
    ((sign_message { message := "m", secret := "0" }).data.signature = "" ∧
      (sign_message { message := "m", secret := "0" }).data.public_key = "" ∧
      ((sign_message { message := "m", secret := "0" }).data.message = signDecodeErr ∨
        (sign_message { message := "m", secret := "0" }).data.message = signParseErr)) ∧
    ((verify_message { message := "m", signature := "x", pubkey := "!" }).data.valid = false ∧
      (verify_message { message := "m", signature := "x", pubkey := "!" }).data.pubkey = "!" ∧
      ((verify_message { message := "m", signature := "x", pubkey := "!" }).data.message = "Invalid base58 pubkey" ∨
        (verify_message { message := "m", signature := "x", pubkey := "!" }).data.message = "Failed to parse pubkey" ∨
        (verify_message { message := "m", signature := "x", pubkey := "!" }).data.message = "Invalid base64 signature" ∨
        (verify_message { message := "m", signature := "x", pubkey := "!" }).data.message = "Failed to parse signature")) ∧
    ((create_token { mint_authority := "1", mint := "!", decimals := 2 }).data.program_id = "" ∧
      (create_token { mint_authority := "1", mint := "!", decimals := 2 }).data.accounts = [] ∧
      ((create_token { mint_authority := "1", mint := "!", decimals := 2 }).data.instruction_data = "Invalid mint pubkey" ∨
        (create_token { mint_authority := "1", mint := "!", decimals := 2 }).data.instruction_data = "Invalid mintAuthority pubkey")) ∧
    ((mint_token { mint := "!", destination := "1", authority := "1", amount := 1 }).data.program_id = "" ∧
      (mint_token { mint := "!", destination := "1", authority := "1", amount := 1 }).data.accounts = [] ∧
      ((mint_token { mint := "!", destination := "1", authority := "1", amount := 1 }).data.instruction_data = "Invalid mint pubkey" ∨
        (mint_token { mint := "!", destination := "1", authority := "1", amount := 1 }).data.instruction_data = "Invalid destination pubkey" ∨
        (mint_token { mint := "!", destination := "1", authority := "1", amount := 1 }).data.instruction_data = "Invalid authority pubkey")) ∧
    ((send_sol { «from» := "!", «to» := "1", lamports := 7 }).data.program_id = "" ∧
      (send_sol { «from» := "!", «to» := "1", lamports := 7 }).data.accounts = [] ∧
      ((send_sol { «from» := "!", «to» := "1", lamports := 7 }).data.instruction_data = base64Encode (utf8Bytes sendSolFromErr) ∨
        (send_sol { «from» := "!", «to» := "1", lamports := 7 }).data.instruction_data = base64Encode (utf8Bytes sendSolToErr))) ∧
    ((send_token { destination := "!", mint := "1", owner := "1", amount := 7 }).data.program_id = "" ∧
      (send_token { destination := "!", mint := "1", owner := "1", amount := 7 }).data.accounts = [] ∧
      ((send_token { destination := "!", mint := "1", owner := "1", amount := 7 }).data.instruction_data = base64Encode (utf8Bytes "Invalid destination pubkey") ∨
        (send_token { destination := "!", mint := "1", owner := "1", amount := 7 }).data.instruction_data = base64Encode (utf8Bytes "Invalid mint pubkey") ∨
        (send_token { destination := "!", mint := "1", owner := "1", amount := 7 }).data.instruction_data = base64Encode (utf8Bytes "Invalid owner pubkey"))) :=
  ⟨C9_response_envelope.1 (List.replicate 32 0),
    C9_response_envelope.2.1 _ (by decide),
    C9_response_envelope.2.2.1 _ (by decide),
    C9_response_envelope.2.2.2.1 _ (by decide),
    C9_response_envelope.2.2.2.2.1 _ (by decide),
    C9_response_envelope.2.2.2.2.2.1 _ (by decide),
    C9_response_envelope.2.2.2.2.2.2 _ (by decide)⟩

theorem C10_witness :
    (∃ ix, initialize_mint splTokenId (List.replicate 32 0) (List.replicate 32 0) none 6 = .ok ix) ∧
    (create_token { mint_authority := "11111111111111111111111111111111", mint := "11111111111111111111111111111111", decimals := 6 }).success = true :=
  C10_create_token_success
    { mint_authority := "11111111111111111111111111111111", mint := "11111111111111111111111111111111", decimals := 6 }
    (List.replicate 32 0) (List.replicate 32 0) (by decide) (by decide) (by decide)

end Superdev
